import Mathlib

/-!
Verification of the gdigrab screen-capture device (libavdevice/gdigrab.c)
against its specification.

The C source is shallowly embedded: every OS interaction (Win32 call) is an
input supplied through an environment record, machine integers are modeled as
`Int` (the values involved — coordinates, sizes, microsecond timestamps — stay
far below 2^63 in every scenario considered, so wraparound is not modeled),
`double` arithmetic on `av_q2d` values is modeled exactly over `ℚ` with
C's double→int64 conversion modeled as truncation toward zero, and fallible
steps return `Option`/error sums.  The unbounded pacing loop is modeled with
the list of successive `av_gettime()` readings as fuel.
-/

namespace GdiGrab

/-- Win32 RECT: left/top/right/bottom, right and bottom exclusive. -/
structure Rect where
  left : Int
  top : Int
  right : Int
  bottom : Int
deriving DecidableEq, Repr

/-- tagRESOLUTION from gdigrab.c: an x/y pixel count pair. -/
structure Resolution where
  x : Int
  y : Int
deriving DecidableEq, Repr

/-- tagMONITOR from gdigrab.c: logical resolution, physical resolution and
logical bounding rectangle of one display. -/
structure Monitor where
  logical : Resolution
  physical : Resolution
  rect : Rect
deriving DecidableEq, Repr

/-- The per-monitor data the OS reports to the `monitor_enum` callback
(`lprcMonitor` plus the four `GetDeviceCaps` readings). -/
structure MonitorInput where
  rect : Rect
  logical : Resolution
  physical : Resolution
deriving DecidableEq, Repr

/-- The MONITOR record `monitor_enum` stores for one reported display. -/
def mkMonitor (d : MonitorInput) : Monitor :=
  ⟨d.logical, d.physical, d.rect⟩

/-- C integer division truncates toward zero; `Int.tdiv` has the same
semantics, and is used wherever the C source divides. -/
def cdiv (a b : Int) : Int := Int.tdiv a b

/-- AVRational: a rational number as a numerator/denominator pair of C ints.
`av_q2d` reads it as the real number `num/den`. -/
structure AVRational where
  num : Int
  den : Int
deriving DecidableEq, Repr

/-- av_inv_q: swap numerator and denominator. -/
def av_inv_q (q : AVRational) : AVRational := ⟨q.den, q.num⟩

/-- Test membership of a logical point in a monitor's bounding rectangle,
exactly the comparison chain of `get_monitor_id_by_logical_point`. -/
def ptInMonitor (m : Monitor) (x y : Int) : Bool :=
  decide (m.rect.left ≤ x) && decide (x < m.rect.right) &&
  decide (m.rect.top ≤ y) && decide (y < m.rect.bottom)

/-- Test of the x-axis span alone (`get_monitor_id_by_logical_x`). -/
def xInMonitor (m : Monitor) (x : Int) : Bool :=
  decide (m.rect.left ≤ x) && decide (x < m.rect.right)

/-- Test of the y-axis span alone (`get_monitor_id_by_logical_y`). -/
def yInMonitor (m : Monitor) (y : Int) : Bool :=
  decide (m.rect.top ≤ y) && decide (y < m.rect.bottom)

/-- Index of the first list element satisfying `p`: the ascending `for` loop
shared by the three monitor lookup functions. -/
def findMonitorIdx (p : Monitor → Bool) : List Monitor → Option Nat
  | [] => none
  | m :: rest => if p m then some 0 else (findMonitorIdx p rest).map (· + 1)

/-- get_monitor_id_by_logical_point: first monitor containing the point,
`-1` when none does (gap, outside all monitors, or empty registry). -/
def get_monitor_id_by_logical_point (ms : List Monitor) (x y : Int) : Int :=
  match findMonitorIdx (fun m => ptInMonitor m x y) ms with
  | some i => (i : Int)
  | none => -1

/-- get_monitor_id_by_logical_x: lookup along the x axis alone. -/
def get_monitor_id_by_logical_x (ms : List Monitor) (x : Int) : Int :=
  match findMonitorIdx (fun m => xInMonitor m x) ms with
  | some i => (i : Int)
  | none => -1

/-- get_monitor_id_by_logical_y: lookup along the y axis alone. -/
def get_monitor_id_by_logical_y (ms : List Monitor) (y : Int) : Int :=
  match findMonitorIdx (fun m => yInMonitor m y) ms with
  | some i => (i : Int)
  | none => -1

/-- get_monitor_id_by_logical_rectangle: point lookup at the rectangle's
center (C truncating division for the halving). -/
def get_monitor_id_by_logical_rectangle (ms : List Monitor) (r : Rect) : Int :=
  get_monitor_id_by_logical_point ms
    (r.left + cdiv (r.right - r.left) 2)
    (r.top + cdiv (r.bottom - r.top) 2)

/-- LOGICAL_TO_PHYSICAL_X(val, i): `val * monitors[i].physical.x /
monitors[i].logical.x`.  The C macro indexes the static array with no bound
check; an index outside `[0, length)` — in particular the `-1` produced by a
failed lookup — is an out-of-bounds array access, modeled as `none`. -/
def logicalToPhysicalX (ms : List Monitor) (val : Int) (i : Int) : Option Int :=
  if h : 0 ≤ i ∧ i.toNat < ms.length then
    let m := ms.get ⟨i.toNat, h.2⟩
    some (cdiv (val * m.physical.x) m.logical.x)
  else none

/-- LOGICAL_TO_PHYSICAL_Y(val, i), same shape as the X macro. -/
def logicalToPhysicalY (ms : List Monitor) (val : Int) (i : Int) : Option Int :=
  if h : 0 ≤ i ∧ i.toNat < ms.length then
    let m := ms.get ⟨i.toNat, h.2⟩
    some (cdiv (val * m.physical.y) m.logical.y)
  else none

/-- The x-axis monitor index `convert_logical_rect_to_physical` selects for
a corner: the point lookup's result if non-negative (`if (ind >= 0)`), else
the x-axis fallback lookup — whose own `-1` failure value passes through. -/
def cornerIdxX (ms : List Monitor) (x y : Int) : Int :=
  if 0 ≤ get_monitor_id_by_logical_point ms x y then
    get_monitor_id_by_logical_point ms x y
  else get_monitor_id_by_logical_x ms x

/-- The y-axis monitor index selected for a corner, with the y-axis
fallback. -/
def cornerIdxY (ms : List Monitor) (x y : Int) : Int :=
  if 0 ≤ get_monitor_id_by_logical_point ms x y then
    get_monitor_id_by_logical_point ms x y
  else get_monitor_id_by_logical_y ms y

/-- convert_logical_rect_to_physical: scale each corner by the resolution
ratio of the monitor resolved for it (point lookup first, per-axis fallback
on failure; the bottom-right lookup probes `(right-1, bottom-1)` but scales
the exclusive `right`/`bottom` values themselves).  `none` models the
out-of-bounds `monitors[-1]` access that the C code performs when a corner
resolves to no monitor at all. -/
def convert_logical_rect_to_physical (ms : List Monitor) (r : Rect) : Option Rect :=
  match logicalToPhysicalX ms r.left (cornerIdxX ms r.left r.top),
        logicalToPhysicalY ms r.top (cornerIdxY ms r.left r.top),
        logicalToPhysicalX ms r.right (cornerIdxX ms (r.right - 1) (r.bottom - 1)),
        logicalToPhysicalY ms r.bottom (cornerIdxY ms (r.right - 1) (r.bottom - 1)) with
  | some l, some t, some x, some b => some ⟨l, t, x, b⟩
  | _, _, _, _ => none

/-- A corner coordinate pair resolves when the point lookup finds a monitor
or both per-axis fallback lookups do. -/
def cornerResolves (ms : List Monitor) (x y : Int) : Prop :=
  0 ≤ get_monitor_id_by_logical_point ms x y ∨
  (0 ≤ get_monitor_id_by_logical_x ms x ∧ 0 ≤ get_monitor_id_by_logical_y ms y)

instance cornerResolvesDecidable (ms : List Monitor) (x y : Int) :
    Decidable (cornerResolves ms x y) := by
  unfold cornerResolves
  exact inferInstance

/-! ### Process-wide monitor globals and enumeration

gdigrab.c keeps `static MONITOR monitors[MY_MAX_MONITORS]`, `static int
monitorsNum` and `static RECT rcCombined` at file scope: one mutable table
for the whole process.  The table storage is modeled as a total map
`Nat → Monitor` so that the callback's unchecked write
`monitors[monitorsNum] = ...` is representable even when the index runs past
the 4-element array; the index of each write is reported so that its
in-boundedness can be stated.  `monitorsNum` is only ever reset to 0 and
incremented, so the C `int` is modeled as `Nat`. -/

/-- MY_MAX_MONITORS: the hard capacity of the static `monitors` array. -/
def MY_MAX_MONITORS : Nat := 4

/-- IsRectEmpty per Win32: a rectangle with non-positive width or height. -/
def rectEmpty (r : Rect) : Bool :=
  decide (r.right ≤ r.left) || decide (r.bottom ≤ r.top)

/-- Win32 UnionRect: bounding box of two rectangles, ignoring empty inputs
(and producing the all-zero rectangle when both are empty). -/
def unionRect (a b : Rect) : Rect :=
  if rectEmpty a then (if rectEmpty b then ⟨0, 0, 0, 0⟩ else b)
  else if rectEmpty b then a
  else ⟨min a.left b.left, min a.top b.top, max a.right b.right, max a.bottom b.bottom⟩

/-- The file-scope mutable globals of gdigrab.c.  `store` is the memory the
`monitors` array lives in: indices `0..MY_MAX_MONITORS-1` are the array
cells, larger indices are whatever lies behind it. -/
structure EnumGlobals where
  store : Nat → Monitor
  monitorsNum : Nat
  rcCombined : Rect

/-- The registry contents an observer of the globals sees: the `monitorsNum`
cells starting at index 0. -/
def EnumGlobals.registry (g : EnumGlobals) : List Monitor :=
  (List.range g.monitorsNum).map g.store

/-- monitor_enum: the EnumDisplayMonitors callback.  Stores the reported
monitor at index `monitorsNum` — with no bound check — grows the combined
rectangle, and increments `monitorsNum`.  The second component is the index
the write went to. -/
def monitor_enum (g : EnumGlobals) (d : MonitorInput) : EnumGlobals × Nat :=
  (⟨fun i => if i = g.monitorsNum then mkMonitor d else g.store i,
    g.monitorsNum + 1,
    unionRect g.rcCombined d.rect⟩,
   g.monitorsNum)

/-- EnumDisplayMonitors: invokes `monitor_enum` once per attached monitor,
in the order the OS reports them.  Returns the final globals and the list of
array indices written. -/
def enumDisplayMonitors (g : EnumGlobals) : List MonitorInput → EnumGlobals × List Nat
  | [] => (g, [])
  | d :: rest =>
      let gi := monitor_enum g d
      let rec' := enumDisplayMonitors gi.1 rest
      (rec'.1, gi.2 :: rec'.2)

/-- The reset of the globals that `gdigrab_read_header` performs before
enumerating (`SetRectEmpty(&rcCombined); monitorsNum = 0;`).  The array
storage itself is not cleared. -/
def resetGlobals (g : EnumGlobals) : EnumGlobals :=
  ⟨g.store, 0, ⟨0, 0, 0, 0⟩⟩

/-! ### Session state and session open -/

/-- The `struct gdigrab` private context.  Win32 handles (`HWND`, `HDC`,
`HBITMAP`, the DIB pixel pointer) are opaque nonzero values, modeled as
`Option Int` with `none` for NULL — exactly the truthiness the C code tests.
Of the `BITMAPINFO` only the fields the rest of the file reads are kept. -/
structure Session where
  frame_size : Int
  header_size : Int
  time_base : AVRational
  time_frame : Int
  draw_mouse : Bool
  show_region : Bool
  width : Int
  height : Int
  offset_x : Int
  offset_y : Int
  hwnd : Option Int
  source_hdc : Option Int
  dest_hdc : Option Int
  biWidth : Int
  biHeight : Int
  biBitCount : Int
  hbmp : Option Int
  buffer : Option Int
  clip_rect : Rect
  region_hwnd : Option Int
  cursor_error_printed : Bool
deriving DecidableEq, Repr

/-- The private options of the device (filled in by the host's option
parser before open; 0/1 int options are modeled as Bool). -/
structure GrabOptions where
  draw_mouse : Bool
  show_region : Bool
  framerate : AVRational
  width : Int
  height : Int
  offset_x : Int
  offset_y : Int
deriving DecidableEq, Repr

/-- The three shapes of the target filename string: `"title=<name>"`,
`"desktop"`, or anything else. -/
inductive TargetSpec where
  | title
  | desktop
  | badSpec
deriving DecidableEq, Repr

/-- Outcomes of every Win32 call `gdigrab_read_header` makes, supplied as an
environment.  Handle fields give the (nonzero) handle values returned by the
corresponding calls when they succeed. -/
structure OpenEnv where
  findWindowOk : Bool
  hwndHandle : Int
  getDCOk : Bool
  sourceDCHandle : Int
  bpp : Int
  topology : List MonitorInput
  windowRect : Rect
  clientRect : Rect
  virtualScreen : Rect
  createCompatibleDCOk : Bool
  destDCHandle : Int
  createDIBOk : Bool
  hbmpHandle : Int
  bufferHandle : Int
  selectObjectOk : Bool
  bmWidthBytes : Int
  bmHeight : Int
  bmPlanes : Int
  newStreamOk : Bool
  gettime : Int
  regionInitOk : Bool
  regionHwndHandle : Int
deriving DecidableEq, Repr

/-- The distinct error returns of `gdigrab_read_header`, one per failing
site.  All except `streamFailed` (ENOMEM) are `AVERROR(EIO)` in the C code;
the constructors record which log message accompanies the error. -/
inductive OpenError where
  | badFilename
  | windowNotFound
  | getDCFailed
  | areaOutside
  | invalidProps
  | createCompatibleDCFailed
  | dibFailed
  | selectObjectFailed
  | streamFailed
  | regionInitFailed
deriving DecidableEq, Repr

/-- The two validation failures the spec groups as `InvalidArea`: the
capture-area containment check ("Capture area ... extends outside window
area") and the extent/bit-depth check ("Invalid properties"). -/
def OpenError.isInvalidArea : OpenError → Bool
  | .areaOutside => true
  | .invalidProps => true
  | _ => false

/-- Result of an open attempt.  `ub` marks a run in which the C code reads
`monitors[-1]` (a corner of the rectangle being converted resolved to no
monitor), after which no defined result exists. -/
inductive OpenOutcome where
  | ok (s : Session)
  | err (e : OpenError)
  | ub
deriving DecidableEq, Repr

/-- Whether an open attempt produced an active session. -/
def OpenOutcome.isOk : OpenOutcome → Bool
  | .ok _ => true
  | _ => false

/-- The clip rectangle of the session an open attempt produced, if any. -/
def OpenOutcome.clipRect : OpenOutcome → Option Rect
  | .ok s => some s.clip_rect
  | _ => none

/-- Resources acquired during `gdigrab_read_header`, in acquisition order:
the source DC from GetDC, the compatible DC, the DIB section (the back
buffer!), the new stream, and the region indicator window. -/
inductive Acq where
  | sourceDC
  | destDC
  | dib
  | stream
  | regionWnd
deriving DecidableEq, Repr

/-- The target's virtual bounds in physical pixels, as computed at lines
449-478: for a window, the client rectangle scaled by the monitor resolved
from the window rectangle's center (an unresolved `-1` index makes the
LOGICAL_TO_PHYSICAL macros read `monitors[-1]`, hence `none`); for the
desktop, the virtual-screen metrics run through
`convert_logical_rect_to_physical`. -/
def virtualRectOf (hwnd : Option Int) (reg : List Monitor) (env : OpenEnv) :
    Option Rect :=
  match hwnd with
  | some _ =>
      let ind := get_monitor_id_by_logical_rectangle reg env.windowRect
      let cr := env.clientRect
      do
        let l ← logicalToPhysicalX reg cr.left ind
        let r ← logicalToPhysicalX reg cr.right ind
        let t ← logicalToPhysicalY reg cr.top ind
        let b ← logicalToPhysicalY reg cr.bottom ind
        pure ⟨l, t, r, b⟩
  | none => convert_logical_rect_to_physical reg env.virtualScreen

/-- The window handle the open sequence works with: the window found for a
`title=` target, NULL for the desktop. -/
def hwndOfTarget (target : TargetSpec) (env : OpenEnv) : Option Int :=
  match target with
  | .title => some env.hwndHandle
  | _ => none

/-- The clip rectangle of lines 480-491: the full virtual bounds when no
explicit size was requested, else the raw offset/size values as given —
no DPI conversion touches them. -/
def clipRectOf (opts : GrabOptions) (virtualRect : Rect) : Rect :=
  if opts.width = 0 ∨ opts.height = 0 then virtualRect
  else ⟨opts.offset_x, opts.offset_y,
        opts.width + opts.offset_x, opts.height + opts.offset_y⟩

/-- The DIB header size: `sizeof(BITMAPFILEHEADER) (= 14) +
sizeof(BITMAPINFOHEADER) (= 40) + (bpp <= 8 ? (1 << bpp) : 0) *
sizeof(RGBQUAD) (= 4)` with the Win32 ABI struct sizes. -/
def headerSizeOf (bpp : Int) : Int :=
  14 + 40 + (if bpp ≤ 8 then 2 ^ bpp.toNat else 0) * 4

/-- gdigrab_read_header after the target has been resolved: GetDC, monitor
enumeration, virtual-bounds computation, clip computation and validation,
back-buffer creation, stream creation, and context population, following
the C control flow line by line.  Returns the outcome, the resources
acquired during the call, and the updated process globals. -/
def open_after_target (g : EnumGlobals) (hwnd : Option Int)
    (opts : GrabOptions) (env : OpenEnv) :
    OpenOutcome × List Acq × EnumGlobals :=
  if ¬ env.getDCOk then (.err .getDCFailed, [], g)
  else
    let g1 := (enumDisplayMonitors (resetGlobals g) env.topology).1
    let reg := g1.registry
    match virtualRectOf hwnd reg env with
    | none => (.ub, [.sourceDC], g1)
    | some virtual_rect =>
      let clip_rect := clipRectOf opts virtual_rect
      if clip_rect.left < virtual_rect.left ∨ clip_rect.top < virtual_rect.top ∨
         clip_rect.right > virtual_rect.right ∨ clip_rect.bottom > virtual_rect.bottom then
        (.err .areaOutside, [.sourceDC], g1)
      else if clip_rect.right - clip_rect.left ≤ 0 ∨
              clip_rect.bottom - clip_rect.top ≤ 0 ∨ env.bpp % 8 ≠ 0 then
        (.err .invalidProps, [.sourceDC], g1)
      else if ¬ env.createCompatibleDCOk then
        (.err .createCompatibleDCFailed, [.sourceDC], g1)
      else if ¬ env.createDIBOk then
        (.err .dibFailed, [.sourceDC, .destDC], g1)
      else if ¬ env.selectObjectOk then
        (.err .selectObjectFailed, [.sourceDC, .destDC, .dib], g1)
      else if ¬ env.newStreamOk then
        (.err .streamFailed, [.sourceDC, .destDC, .dib], g1)
      else
        let time_base := av_inv_q opts.framerate
        let s : Session :=
          { frame_size := env.bmWidthBytes * env.bmHeight * env.bmPlanes
            header_size := headerSizeOf env.bpp
            time_base := time_base
            -- av_gettime() / av_q2d(time_base): for a positive time base this
            -- double expression truncates to gettime * den / num
            time_frame := cdiv (env.gettime * time_base.den) time_base.num
            draw_mouse := opts.draw_mouse
            show_region := opts.show_region
            width := opts.width
            height := opts.height
            offset_x := opts.offset_x
            offset_y := opts.offset_y
            hwnd := hwnd
            source_hdc := some env.sourceDCHandle
            dest_hdc := some env.destDCHandle
            biWidth := clip_rect.right - clip_rect.left
            biHeight := -(clip_rect.bottom - clip_rect.top)
            biBitCount := env.bpp
            hbmp := some env.hbmpHandle
            buffer := some env.bufferHandle
            clip_rect := clip_rect
            region_hwnd := none
            cursor_error_printed := false }
        if opts.show_region then
          if ¬ env.regionInitOk then
            (.err .regionInitFailed, [.sourceDC, .destDC, .dib, .stream], g1)
          else
            (.ok { s with region_hwnd := some env.regionHwndHandle },
             [.sourceDC, .destDC, .dib, .stream, .regionWnd], g1)
        else (.ok s, [.sourceDC, .destDC, .dib, .stream], g1)

/-- gdigrab_read_header: resolve the target from the filename (grabbing a
named window disables the region indicator with a warning), then run the
rest of the open sequence. -/
def gdigrab_read_header (g : EnumGlobals) (target : TargetSpec)
    (opts : GrabOptions) (env : OpenEnv) :
    OpenOutcome × List Acq × EnumGlobals :=
  match target with
  | .badSpec => (.err .badFilename, [], g)
  | .title =>
      if ¬ env.findWindowOk then (.err .windowNotFound, [], g)
      else open_after_target g (some env.hwndHandle)
             { opts with show_region := false } env
  | .desktop => open_after_target g none opts env

/-! ### Frame pacing and packet reading -/

/-- The `delay` of the pacing loop: the C code computes the double
`time_frame * av_q2d(time_base) - curtime` and converts it to `int64_t`
(truncation toward zero).  With `av_q2d(time_base) = num/den` and a positive
denominator this value is exactly `(time_frame*num - curtime*den) / den`
truncated, i.e. `cdiv` of those integers; the double arithmetic itself is
modeled as exact. -/
def pacer_delay (tb : AVRational) (time_frame curtime : Int) : Int :=
  cdiv (time_frame * tb.num - curtime * tb.den) tb.den

/-- The overshoot test `delay < INT64_C(-1000000) * av_q2d(time_base)`:
comparing the integer `delay` with the double `-1000000*num/den`, which for
a positive denominator is the integer comparison
`delay * den < -1000000 * num`. -/
def pacer_skip (tb : AVRational) (delay : Int) : Bool :=
  decide (delay * tb.den < -1000000 * tb.num)

/-- The `for (;;)` pacing loop of `gdigrab_read_packet`, lines 733-747.
Each iteration reads the clock; `delay <= 0` emits (adding one extra tick to
`time_frame` when the overshoot exceeds one tick); otherwise a non-blocking
caller gets EAGAIN (`Except.error ()`) and a blocking caller sleeps and
retries.  The list of successive `av_gettime()` readings doubles as fuel:
`none` means the modeled clock ran out before the loop exited.  On emission
the result is the updated `time_frame` and the `curtime` of the final
iteration. -/
def pacing_loop (tb : AVRational) (nonblock : Bool) (time_frame : Int) :
    List Int → Option (Except Unit (Int × Int))
  | [] => none
  | c :: rest =>
      let delay := pacer_delay tb time_frame c
      if delay ≤ 0 then
        some (.ok (if pacer_skip tb delay then time_frame + 1000000 else time_frame, c))
      else if nonblock then some (.error ())
      else pacing_loop tb nonblock time_frame rest

/-- CURSOR_SHOWING from winuser.h. -/
def CURSOR_SHOWING : Int := 1

/-- Outcomes of the Win32 calls `paint_mouse_pointer` makes. -/
structure CursorEnv where
  getCursorInfoOk : Bool
  flags : Int
  screenPos : Int × Int
  getIconInfoOk : Bool
  hotspot : Int × Int
  horzres : Int
  vertres : Int
  desktophorzres : Int
  desktopvertres : Int
  getWindowRectOk : Bool
  windowRect : Rect
  drawIconOk : Bool
deriving DecidableEq, Repr

/-- The draw position `paint_mouse_pointer` computes (lines 662-680): for a
window target, screen position minus clip origin, hotspot and window origin,
then DPI-scaled; for the desktop, screen position DPI-scaled first, then
minus clip origin and hotspot.  `none` models GetWindowRect failing. -/
def cursor_draw_pos (s : Session) (e : CursorEnv) : Option (Int × Int) :=
  match s.hwnd with
  | some _ =>
      if e.getWindowRectOk then
        let px := e.screenPos.1 - s.clip_rect.left - e.hotspot.1 - e.windowRect.left
        let py := e.screenPos.2 - s.clip_rect.top - e.hotspot.2 - e.windowRect.top
        some (cdiv (px * e.desktophorzres) e.horzres,
              cdiv (py * e.desktopvertres) e.vertres)
      else none
  | none =>
      some (cdiv (e.screenPos.1 * e.desktophorzres) e.horzres
              - s.clip_rect.left - e.hotspot.1,
            cdiv (e.screenPos.2 * e.desktopvertres) e.vertres
              - s.clip_rect.top - e.hotspot.2)

/-- The bounds test of lines 685-686: the draw happens only when the
computed top-left lies in `[0, width] × [0, height]` of the clip rectangle
(both upper edges inclusive, exactly as the C comparisons read). -/
def inClipBounds (clip : Rect) (p : Int × Int) : Bool :=
  decide (0 ≤ p.1) && decide (p.1 ≤ clip.right - clip.left) &&
  decide (0 ≤ p.2) && decide (p.2 ≤ clip.bottom - clip.top)

/-- CURSOR_ERROR: log once per session, then set the suppression flag. -/
def markCursorError (s : Session) : Session :=
  { s with cursor_error_printed := true }

/-- paint_mouse_pointer: returns whether DrawIcon was invoked, and the
session (whose only mutable field here is the error-logged flag).  The
not-showing test precedes the icon-info fetch; every failure path skips the
draw. -/
def paint_mouse_pointer (s : Session) (e : CursorEnv) : Bool × Session :=
  if ¬ e.getCursorInfoOk then (false, markCursorError s)
  else if e.flags ≠ CURSOR_SHOWING then (false, s)
  else if ¬ e.getIconInfoOk then (false, markCursorError s)
  else
    match cursor_draw_pos s e with
    | none => (false, markCursorError s)
    | some p =>
        if inClipBounds s.clip_rect p then
          (true, if e.drawIconOk then s else markCursorError s)
        else (false, s)

/-- A produced packet: its allocated byte size and its pts. -/
structure Packet where
  size : Int
  pts : Int
deriving DecidableEq, Repr

/-- Result alternatives of `gdigrab_read_packet` (EAGAIN from the pacer,
ENOMEM from av_new_packet, EIO from BitBlt, or an emitted packet together
with the function's integer return value). -/
inductive ReadResult where
  | eagain
  | enomem
  | eio
  | ok (pkt : Packet) (ret : Int)
deriving DecidableEq, Repr

/-- Outcomes of the calls `gdigrab_read_packet` makes: the successive
`av_gettime()` readings and the success of av_new_packet / BitBlt, plus the
cursor environment for `paint_mouse_pointer`. -/
structure ReadEnv where
  clock : List Int
  newPacketOk : Bool
  bitBltOk : Bool
  cursor : CursorEnv
deriving DecidableEq, Repr

/-- gdigrab_read_packet: advance the local `time_frame` by one tick, pump
the region window's message queue (which touches no session state), run the
pacing loop, then allocate the packet, blit, optionally paint the cursor,
serialize, and only then store `time_frame` back into the context.  EAGAIN,
ENOMEM and EIO all return before that store, leaving the session exactly as
it was.  `none` = the modeled clock ran out inside the blocking loop. -/
def gdigrab_read_packet (s : Session) (nonblock : Bool) (env : ReadEnv) :
    Option (ReadResult × Session) :=
  let file_size := s.header_size + s.frame_size
  let time_frame := s.time_frame + 1000000
  match pacing_loop s.time_base nonblock time_frame env.clock with
  | none => none
  | some (.error ()) => some (.eagain, s)
  | some (.ok (tf, curtime)) =>
      if ¬ env.newPacketOk then some (.enomem, s)
      else if ¬ env.bitBltOk then some (.eio, s)
      else
        let s1 := if s.draw_mouse then (paint_mouse_pointer s env.cursor).2 else s
        some (.ok ⟨file_size, curtime⟩ (s.header_size + s.frame_size),
              { s1 with time_frame := tf })

/-! ### Session close -/

/-- The release operations `gdigrab_read_close` can issue, each naming the
handle value it operates on. -/
inductive CloseOp where
  | releaseDC (h : Int)
  | deleteDC (h : Int)
  | deleteObject (h : Int)
  | destroyWindow (h : Int)
deriving DecidableEq, Repr

/-- The handle a close operation releases, deletes or destroys. -/
def CloseOp.handle : CloseOp → Int
  | .releaseDC h => h
  | .deleteDC h => h
  | .deleteObject h => h
  | .destroyWindow h => h

/-- gdigrab_region_wnd_destroy: DestroyWindow if the handle is set, then
clear the handle.  This is the only field `close` resets. -/
def gdigrab_region_wnd_destroy (s : Session) : List CloseOp × Session :=
  ((match s.region_hwnd with
    | some h => [CloseOp.destroyWindow h]
    | none => []),
   { s with region_hwnd := none })

/-- gdigrab_read_close, lines 794-811: destroy the region window when
`show_region` is set, then ReleaseDC(source), DeleteDC(dest),
DeleteObject(hbmp), and DeleteDC(source) *again* — each guarded only by the
field being nonzero, and none of those three fields is ever cleared.
Returns the operations issued in order and the resulting context. -/
def gdigrab_read_close (s : Session) : List CloseOp × Session :=
  let step1 := if s.show_region then gdigrab_region_wnd_destroy s else ([], s)
  let s1 := step1.2
  let ops2 := match s1.source_hdc with
    | some h => [CloseOp.releaseDC h]
    | none => []
  let ops3 := match s1.dest_hdc with
    | some h => [CloseOp.deleteDC h]
    | none => []
  let ops4 := match s1.hbmp with
    | some h => [CloseOp.deleteObject h]
    | none => []
  let ops5 := match s1.source_hdc with
    | some h => [CloseOp.deleteDC h]
    | none => []
  (step1.1 ++ ops2 ++ ops3 ++ ops4 ++ ops5, s1)

/-- Replay a list of close operations against the set of currently live
handles: each operation on a live handle consumes it; an operation on a
handle that is not live is an invalid release (second component `true`
when any occurred). -/
def runRelease (live : List Int) : List CloseOp → List Int × Bool
  | [] => (live, false)
  | op :: rest =>
      if op.handle ∈ live then
        let r := runRelease (live.erase op.handle) rest
        (r.1, r.2)
      else
        let r := runRelease live rest
        (r.1, true)

/-! ### General lemmas about the embedded definitions -/

/-- A found monitor index is an in-range position of the registry list. -/
lemma findMonitorIdx_lt_length {p : Monitor → Bool} :
    ∀ {ms : List Monitor} {i : Nat}, findMonitorIdx p ms = some i → i < ms.length := by
  intro ms
  induction ms with
  | nil => intro i h; simp [findMonitorIdx] at h
  | cons m rest ih =>
      intro i h
      by_cases hp : p m
      · simp [findMonitorIdx, hp] at h
        simp [List.length_cons]
        omega
      · simp [findMonitorIdx, hp] at h
        obtain ⟨j, hj, rfl⟩ := h
        have := ih hj
        simp [List.length_cons]
        omega

/-- The common shape of the three lookups: a non-negative result is a valid
index into the registry. -/
lemma monitorIdx_nonneg_valid {p : Monitor → Bool} {ms : List Monitor}
    (h : 0 ≤ (match findMonitorIdx p ms with | some i => (i : Int) | none => -1)) :
    ((match findMonitorIdx p ms with | some i => (i : Int) | none => -1)).toNat
      < ms.length := by
  cases hf : findMonitorIdx p ms with
  | none => rw [hf] at h; simp at h
  | some i => simpa using findMonitorIdx_lt_length hf

/-- A non-negative point-lookup result is a valid registry index. -/
lemma get_point_valid {ms : List Monitor} {x y : Int}
    (h : 0 ≤ get_monitor_id_by_logical_point ms x y) :
    (get_monitor_id_by_logical_point ms x y).toNat < ms.length := by
  unfold get_monitor_id_by_logical_point at h ⊢
  exact monitorIdx_nonneg_valid h

/-- A non-negative x-axis lookup result is a valid registry index. -/
lemma get_x_valid {ms : List Monitor} {x : Int}
    (h : 0 ≤ get_monitor_id_by_logical_x ms x) :
    (get_monitor_id_by_logical_x ms x).toNat < ms.length := by
  unfold get_monitor_id_by_logical_x at h ⊢
  exact monitorIdx_nonneg_valid h

/-- A non-negative y-axis lookup result is a valid registry index. -/
lemma get_y_valid {ms : List Monitor} {y : Int}
    (h : 0 ≤ get_monitor_id_by_logical_y ms y) :
    (get_monitor_id_by_logical_y ms y).toNat < ms.length := by
  unfold get_monitor_id_by_logical_y at h ⊢
  exact monitorIdx_nonneg_valid h

/-- The x scaling macro is defined on every valid index. -/
lemma logicalToPhysicalX_isSome {ms : List Monitor} {val i : Int}
    (h0 : 0 ≤ i) (hl : i.toNat < ms.length) :
    (logicalToPhysicalX ms val i).isSome = true := by
  unfold logicalToPhysicalX
  rw [dif_pos ⟨h0, hl⟩]
  rfl

/-- The y scaling macro is defined on every valid index. -/
lemma logicalToPhysicalY_isSome {ms : List Monitor} {val i : Int}
    (h0 : 0 ≤ i) (hl : i.toNat < ms.length) :
    (logicalToPhysicalY ms val i).isSome = true := by
  unfold logicalToPhysicalY
  rw [dif_pos ⟨h0, hl⟩]
  rfl

/-- When a corner resolves, the x index selected for it is a valid registry
index. -/
lemma cornerIdxX_valid {ms : List Monitor} {x y : Int} (h : cornerResolves ms x y) :
    0 ≤ cornerIdxX ms x y ∧ (cornerIdxX ms x y).toNat < ms.length := by
  unfold cornerIdxX
  by_cases hp : 0 ≤ get_monitor_id_by_logical_point ms x y
  · rw [if_pos hp]
    exact ⟨hp, get_point_valid hp⟩
  · rw [if_neg hp]
    rcases h with h | ⟨hx, _⟩
    · exact absurd h hp
    · exact ⟨hx, get_x_valid hx⟩

/-- When a corner resolves, the y index selected for it is a valid registry
index. -/
lemma cornerIdxY_valid {ms : List Monitor} {x y : Int} (h : cornerResolves ms x y) :
    0 ≤ cornerIdxY ms x y ∧ (cornerIdxY ms x y).toNat < ms.length := by
  unfold cornerIdxY
  by_cases hp : 0 ≤ get_monitor_id_by_logical_point ms x y
  · rw [if_pos hp]
    exact ⟨hp, get_point_valid hp⟩
  · rw [if_neg hp]
    rcases h with h | ⟨_, hy⟩
    · exact absurd h hp
    · exact ⟨hy, get_y_valid hy⟩

/-- One callback invocation appends the reported monitor to the observed
registry (the write lands at index `monitorsNum`, one past the occupied
prefix). -/
lemma monitor_enum_registry (g : EnumGlobals) (d : MonitorInput) :
    (monitor_enum g d).1.registry = g.registry ++ [mkMonitor d] := by
  simp only [monitor_enum, EnumGlobals.registry, List.range_succ, List.map_append,
    List.map_cons, List.map_nil, if_pos rfl]
  congr 1
  exact List.map_congr_left fun i hi => if_neg (by simp at hi; omega)

/-- Enumeration appends all reported monitors, in order, to the observed
registry. -/
lemma enumDisplayMonitors_registry :
    ∀ (topo : List MonitorInput) (g : EnumGlobals),
      (enumDisplayMonitors g topo).1.registry = g.registry ++ topo.map mkMonitor := by
  intro topo
  induction topo with
  | nil => intro g; simp [enumDisplayMonitors]
  | cons d rest ih =>
      intro g
      simp only [enumDisplayMonitors, List.map_cons]
      rw [ih, monitor_enum_registry]
      simp

/-- The reset performed at the top of open empties the observed registry. -/
lemma resetGlobals_registry (g : EnumGlobals) : (resetGlobals g).registry = [] := by
  simp [resetGlobals, EnumGlobals.registry]

/-- Enumeration writes at the consecutive indices starting from the current
`monitorsNum`, one per reported monitor. -/
lemma enumDisplayMonitors_indices :
    ∀ (topo : List MonitorInput) (g : EnumGlobals),
      (enumDisplayMonitors g topo).2 =
        (List.range topo.length).map (g.monitorsNum + ·) := by
  intro topo
  induction topo with
  | nil => intro g; simp [enumDisplayMonitors]
  | cons d rest ih =>
      intro g
      simp only [enumDisplayMonitors, List.length_cons]
      rw [ih, List.range_succ_eq_map]
      simp only [monitor_enum, List.map_cons, List.map_map, Nat.add_zero]
      congr 1
      exact List.map_congr_left fun a _ => by simp [Function.comp]; omega

/-- Inversion of an emitting run of the pacing loop: the exit reading had a
non-positive delay, and the loop's one skip decision determines the
resulting `time_frame` — `+1000000` exactly when the (truncated) delay
undershot minus one tick. -/
lemma pacing_loop_ok {tb : AVRational} {nb : Bool} {tf : Int} :
    ∀ {clock : List Int} {tf' c : Int},
      pacing_loop tb nb tf clock = some (.ok (tf', c)) →
      pacer_delay tb tf c ≤ 0 ∧
      tf' = (if pacer_skip tb (pacer_delay tb tf c) then tf + 1000000 else tf) := by
  intro clock
  induction clock with
  | nil => intro tf' c h; simp [pacing_loop] at h
  | cons c0 rest ih =>
      intro tf' c h
      simp only [pacing_loop] at h
      by_cases hd : pacer_delay tb tf c0 ≤ 0
      · rw [if_pos hd] at h
        simp only [Option.some.injEq, Except.ok.injEq, Prod.mk.injEq] at h
        obtain ⟨h1, h2⟩ := h
        subst h2
        exact ⟨hd, h1.symm⟩
      · rw [if_neg hd] at h
        cases nb with
        | true => simp at h
        | false =>
            simp only [Bool.false_eq_true, if_false] at h
            exact ih h

/-- Inversion of an emitting `gdigrab_read_packet` run: the pacing loop
emitted at the packet's pts, the packet was allocated with (and the call
returned) `header_size + frame_size`, and the stored context is the
pre-pacing context (possibly with the cursor-error flag raised by the
overlay) with only `time_frame` advanced. -/
lemma read_packet_ok_inv {s : Session} {nb : Bool} {env : ReadEnv}
    {pkt : Packet} {ret : Int} {s' : Session}
    (h : gdigrab_read_packet s nb env = some (.ok pkt ret, s')) :
    ∃ tf, pacing_loop s.time_base nb (s.time_frame + 1000000) env.clock =
            some (.ok (tf, pkt.pts)) ∧
      pkt.size = s.header_size + s.frame_size ∧
      ret = s.header_size + s.frame_size ∧
      s' = { (if s.draw_mouse then (paint_mouse_pointer s env.cursor).2 else s) with
              time_frame := tf } := by
  simp only [gdigrab_read_packet] at h
  cases hpl : pacing_loop s.time_base nb (s.time_frame + 1000000) env.clock with
  | none => rw [hpl] at h; simp at h
  | some r =>
      rw [hpl] at h
      cases r with
      | error u => cases u; simp at h
      | ok pr =>
          obtain ⟨tf, c⟩ := pr
          dsimp only [] at h
          split at h
          · simp at h
          · split at h
            · simp at h
            · rw [Option.some.injEq, Prod.mk.injEq] at h
              obtain ⟨hres, hs⟩ := h
              rw [ReadResult.ok.injEq] at hres
              obtain ⟨hpkt, hret⟩ := hres
              subst hpkt
              exact ⟨tf, rfl, rfl, hret.symm, hs.symm⟩

/-- The cursor overlay touches no session field other than (possibly) the
one-shot error-log flag. -/
lemma paint_mouse_pointer_state (s : Session) (e : CursorEnv) :
    (paint_mouse_pointer s e).2 = s ∨
    (paint_mouse_pointer s e).2 = markCursorError s := by
  unfold paint_mouse_pointer
  repeat' split
  all_goals simp

/-- A successful open produced a session whose header size is the formula
over the device bit depth and whose frame size is the back buffer's byte
size as reported by GetObject. -/
lemma open_after_target_ok {g : EnumGlobals} {hwnd : Option Int}
    {opts : GrabOptions} {env : OpenEnv} {s : Session}
    (h : (open_after_target g hwnd opts env).1 = .ok s) :
    s.header_size = headerSizeOf env.bpp ∧
    s.frame_size = env.bmWidthBytes * env.bmHeight * env.bmPlanes ∧
    s.biBitCount = env.bpp := by
  simp only [open_after_target] at h
  split at h
  · simp at h
  · cases hvr : virtualRectOf hwnd
        (enumDisplayMonitors (resetGlobals g) env.topology).1.registry env with
    | none => rw [hvr] at h; dsimp only [] at h; simp at h
    | some v =>
        rw [hvr] at h
        dsimp only [] at h
        repeat' split at h
        all_goals first
          | (rw [OpenOutcome.ok.injEq] at h
             subst h
             exact ⟨rfl, rfl, rfl⟩)
          | simp at h

/-- A validation failure of the resolved clip rectangle (containment,
extents, or bit-depth alignment) yields one of the two invalid-area errors,
with no DIB section — hence no back buffer — acquired. -/
lemma open_after_target_invalid {g : EnumGlobals} {hwnd : Option Int}
    {opts : GrabOptions} {env : OpenEnv} {v : Rect}
    (hdc : env.getDCOk = true)
    (hv : virtualRectOf hwnd
      ((enumDisplayMonitors (resetGlobals g) env.topology).1).registry env = some v)
    (hbad : (clipRectOf opts v).left < v.left ∨ (clipRectOf opts v).top < v.top ∨
            (clipRectOf opts v).right > v.right ∨
            (clipRectOf opts v).bottom > v.bottom ∨
            (clipRectOf opts v).right - (clipRectOf opts v).left ≤ 0 ∨
            (clipRectOf opts v).bottom - (clipRectOf opts v).top ≤ 0 ∨
            env.bpp % 8 ≠ 0) :
    ∃ e, (open_after_target g hwnd opts env).1 = .err e ∧
      e.isInvalidArea = true ∧
      Acq.dib ∉ (open_after_target g hwnd opts env).2.1 := by
  simp only [open_after_target, hdc, not_true, if_false, hv]
  by_cases hout : (clipRectOf opts v).left < v.left ∨ (clipRectOf opts v).top < v.top ∨
      (clipRectOf opts v).right > v.right ∨ (clipRectOf opts v).bottom > v.bottom
  · rw [if_pos hout]
    exact ⟨.areaOutside, rfl, rfl, by simp⟩
  · have hprops : (clipRectOf opts v).right - (clipRectOf opts v).left ≤ 0 ∨
        (clipRectOf opts v).bottom - (clipRectOf opts v).top ≤ 0 ∨
        env.bpp % 8 ≠ 0 := by tauto
    rw [if_neg hout, if_pos hprops]
    exact ⟨.invalidProps, rfl, rfl, by simp⟩

/-- Every error or success branch of the open sequence past GetDC returns
the enumerated globals. -/
lemma open_after_target_globals (g : EnumGlobals) (hwnd : Option Int)
    (opts : GrabOptions) (env : OpenEnv) (hdc : env.getDCOk = true) :
    (open_after_target g hwnd opts env).2.2 =
      (enumDisplayMonitors (resetGlobals g) env.topology).1 := by
  unfold open_after_target
  rw [hdc]
  simp only [not_true, if_false]
  split
  · rfl
  · split
    · rfl
    · split
      · rfl
      · split
        · rfl
        · split
          · rfl
          · split
            · rfl
            · split
              · rfl
              · split
                · split
                  · rfl
                  · rfl
                · rfl

/-! ### Concrete scenario data used by witnesses and counterexamples -/

/-- A single 800x600 monitor at the desktop origin with equal logical and
physical resolution (no DPI scaling). -/
def mon800 : MonitorInput := ⟨⟨0,0,800,600⟩, ⟨800,600⟩, ⟨800,600⟩⟩

/-- Pristine process globals: empty table storage, zero count. -/
def g0 : EnumGlobals := ⟨fun _ => ⟨⟨0,0⟩, ⟨0,0⟩, ⟨0,0,0,0⟩⟩, 0, ⟨0,0,0,0⟩⟩

/-- An open environment on the 800x600 single-monitor desktop where every
Win32 call succeeds (32 bpp, 400-byte stride, 50 rows). -/
def env800 : OpenEnv :=
  { findWindowOk := true, hwndHandle := 7, getDCOk := true, sourceDCHandle := 1,
    bpp := 32, topology := [mon800], windowRect := ⟨0,0,0,0⟩, clientRect := ⟨0,0,0,0⟩,
    virtualScreen := ⟨0,0,800,600⟩, createCompatibleDCOk := true, destDCHandle := 2,
    createDIBOk := true, hbmpHandle := 3, bufferHandle := 4, selectObjectOk := true,
    bmWidthBytes := 400, bmHeight := 50, bmPlanes := 1, newStreamOk := true,
    gettime := 0, regionInitOk := true, regionHwndHandle := 5 }

/-- The spec's example request: 10 fps, `video_size=100x50`, offset
(10, 20). -/
def opts100 : GrabOptions := ⟨true, false, ⟨10,1⟩, 100, 50, 10, 20⟩

/-- A plain desktop session at 1 fps (tick = 1000000 µs) with a 10x10 clip,
54-byte header, 100-byte frame, mouse drawing off. -/
def pacerS0 : Session :=
  { frame_size := 100, header_size := 54, time_base := ⟨1,1⟩, time_frame := 0,
    draw_mouse := false, show_region := false, width := 0, height := 0,
    offset_x := 0, offset_y := 0, hwnd := none, source_hdc := some 1,
    dest_hdc := some 2, biWidth := 10, biHeight := -10, biBitCount := 32,
    hbmp := some 3, buffer := some 4, clip_rect := ⟨0,0,10,10⟩,
    region_hwnd := none, cursor_error_printed := false }

/-- A cursor environment in which fetching the cursor info fails (no draw
attempt can happen). -/
def cenvNone : CursorEnv := ⟨false, 0, (0,0), false, (0,0), 1, 1, 1, 1, false, ⟨0,0,0,0⟩, false⟩

/-- A cursor environment in which the pointer is showing at (5, 5) with no
hotspot and unit DPI, and every call succeeds. -/
def cenvDraw : CursorEnv :=
  ⟨true, 1, (5, 5), true, (0, 0), 1, 1, 1, 1, true, ⟨0, 0, 0, 0⟩, true⟩

/-- The same open environment as `env800` but reporting a 1024x768 monitor:
the topology a second session might see. -/
def env1024 : OpenEnv :=
  { env800 with topology := [⟨⟨0,0,1024,768⟩, ⟨1024,768⟩, ⟨1024,768⟩⟩],
                virtualScreen := ⟨0,0,1024,768⟩ }

/-- The session after the first emitting read of the pacer scenario. -/
def pacerS1 : Session := { pacerS0 with time_frame := 1000000 }

/-- The session after the second emitting read of the pacer scenario. -/
def pacerS2 : Session := { pacerS0 with time_frame := 2000000 }

/-- The options of the C4 witness scenario: an explicit 100x50 area at
offset (750, 0), which pokes 50 pixels past the right edge of an 800x600
desktop. -/
def optsBad : GrabOptions := ⟨true, false, ⟨10, 1⟩, 100, 50, 750, 0⟩

/-- The context a failed open leaves behind: no handle was ever stored. -/
def closedS : Session :=
  { pacerS0 with source_hdc := none, dest_hdc := none, hbmp := none }

/-- Characterization of the cursor overlay's draw decision: DrawIcon is
invoked exactly when the cursor info fetch succeeded, the pointer is in the
showing state, the icon info fetch succeeded, and the computed draw
position exists and lies within the clip bounds. -/
lemma paint_drew_iff (s : Session) (e : CursorEnv) :
    (paint_mouse_pointer s e).1 = true ↔
      (e.getCursorInfoOk = true ∧ e.flags = CURSOR_SHOWING ∧
       e.getIconInfoOk = true ∧
       ∃ p, cursor_draw_pos s e = some p ∧
         inClipBounds s.clip_rect p = true) := by
  unfold paint_mouse_pointer
  repeat' split
  all_goals simp_all

/-! ### The claims -/

/-- C9: logical-to-physical rectangle conversion is total whenever each
corner coordinate resolves to some monitor (by point lookup or by both
per-axis fallbacks); and there are inputs — here the empty registry left by
a failed enumeration — on which the point lookup and both axis fallbacks
all return `-1`, whereupon the scaling macros index the monitor array at
`-1`, out of bounds (`none`). -/
theorem C9_convert_total_iff_corner_resolves :
    (∀ (ms : List Monitor) (r : Rect),
      cornerResolves ms r.left r.top →
      cornerResolves ms (r.right - 1) (r.bottom - 1) →
      (convert_logical_rect_to_physical ms r).isSome = true) ∧
    get_monitor_id_by_logical_point [] 0 0 = -1 ∧
    get_monitor_id_by_logical_x [] 0 = -1 ∧
    get_monitor_id_by_logical_y [] 0 = -1 ∧
    convert_logical_rect_to_physical [] ⟨0, 0, 10, 10⟩ = none := by
  refine ⟨?_, by decide, by decide, by decide, by decide⟩
  intro ms r h1 h2
  obtain ⟨hx1a, hx1b⟩ := cornerIdxX_valid h1
  obtain ⟨hy1a, hy1b⟩ := cornerIdxY_valid h1
  obtain ⟨hx2a, hx2b⟩ := cornerIdxX_valid h2
  obtain ⟨hy2a, hy2b⟩ := cornerIdxY_valid h2
  obtain ⟨l, hl⟩ := Option.isSome_iff_exists.mp
    (@logicalToPhysicalX_isSome ms r.left (cornerIdxX ms r.left r.top) hx1a hx1b)
  obtain ⟨t, ht⟩ := Option.isSome_iff_exists.mp
    (@logicalToPhysicalY_isSome ms r.top (cornerIdxY ms r.left r.top) hy1a hy1b)
  obtain ⟨x, hx⟩ := Option.isSome_iff_exists.mp
    (@logicalToPhysicalX_isSome ms r.right (cornerIdxX ms (r.right - 1) (r.bottom - 1)) hx2a hx2b)
  obtain ⟨b, hb⟩ := Option.isSome_iff_exists.mp
    (@logicalToPhysicalY_isSome ms r.bottom (cornerIdxY ms (r.right - 1) (r.bottom - 1)) hy2a hy2b)
  unfold convert_logical_rect_to_physical
  rw [hl, ht, hx, hb]
  rfl

/-- Witness for C9: on a single-monitor registry both corners of the
800x600 desktop rectangle resolve, so the conversion is defined. -/
theorem C9_witness :
    (convert_logical_rect_to_physical
      [⟨⟨800, 600⟩, ⟨800, 600⟩, ⟨0, 0, 800, 600⟩⟩] ⟨0, 0, 800, 600⟩).isSome = true :=
  C9_convert_total_iff_corner_resolves.1
    [⟨⟨800, 600⟩, ⟨800, 600⟩, ⟨0, 0, 800, 600⟩⟩] ⟨0, 0, 800, 600⟩
    (by decide) (by decide)

/-- C10: the enumeration callback writes monitor `k` (0-based, in report
order) at array index `monitorsNum + k` with no bound check; from the reset
state the writes stay inside the 4-element `monitors` array exactly when at
most 4 monitors are reported, and a 5-monitor topology makes the last write
land at index 4 — outside the array. -/
theorem C10_enum_write_bounds :
    (∀ (g : EnumGlobals) (topo : List MonitorInput),
      (enumDisplayMonitors g topo).2 =
        (List.range topo.length).map (g.monitorsNum + ·)) ∧
    (∀ (g : EnumGlobals) (topo : List MonitorInput), g.monitorsNum = 0 →
      (((enumDisplayMonitors g topo).2.all fun i => decide (i < MY_MAX_MONITORS)) = true ↔
        topo.length ≤ MY_MAX_MONITORS)) ∧
    (enumDisplayMonitors g0 (List.replicate 5 mon800)).2 = [0, 1, 2, 3, 4] ∧
    ¬ (4 < MY_MAX_MONITORS) := by
  refine ⟨fun g topo => enumDisplayMonitors_indices topo g, ?_, by decide, by decide⟩
  intro g topo h0
  rw [enumDisplayMonitors_indices topo g, h0]
  simp only [List.all_eq_true, List.mem_map, List.mem_range, MY_MAX_MONITORS]
  constructor
  · intro h
    by_contra hlen
    push_neg at hlen
    have := h 4 ⟨4, by omega, by omega⟩
    simp at this
  · intro hlen i hi
    obtain ⟨k, hk, rfl⟩ := hi
    simp
    omega

/-- Witness for C10: from the reset state, a 3-monitor topology keeps every
write index inside the array. -/
theorem C10_witness :
    ((enumDisplayMonitors g0 (List.replicate 3 mon800)).2.all
      fun i => decide (i < MY_MAX_MONITORS)) = true ↔
    (List.replicate 3 mon800).length ≤ MY_MAX_MONITORS :=
  C10_enum_write_bounds.2.1 g0 (List.replicate 3 mon800) rfl

/-- C7 counterexample: the monitor registry is the process-wide static
`monitors`/`monitorsNum` table, so opening a second session (1024x768
topology) overwrites the registry data the first session's open (800x600
topology) had established: the registry observed after the second open
differs from the one observed after the first, although both opens
succeeded. -/
theorem C7_counterexample :
    (gdigrab_read_header g0 .desktop opts100 env800).1.isOk = true ∧
    (gdigrab_read_header ((gdigrab_read_header g0 .desktop opts100 env800).2.2)
        .desktop opts100 env1024).1.isOk = true ∧
    ((gdigrab_read_header ((gdigrab_read_header g0 .desktop opts100 env800).2.2)
        .desktop opts100 env1024).2.2).registry ≠
      ((gdigrab_read_header g0 .desktop opts100 env800).2.2).registry := by
  refine ⟨by decide, by decide, by decide⟩

/-- C7 (amended): the registry is process-wide state rebuilt wholesale at
every open: whenever open reaches the enumeration step (target resolved,
device context obtained), the registry left in the globals is exactly the
freshly reported topology, regardless of what any earlier session had
stored there. -/
theorem C7_registry_rebuilt_wholesale (g : EnumGlobals) (target : TargetSpec)
    (opts : GrabOptions) (env : OpenEnv)
    (htarget : target = .desktop ∨ (target = .title ∧ env.findWindowOk = true))
    (hdc : env.getDCOk = true) :
    ((gdigrab_read_header g target opts env).2.2).registry =
      env.topology.map mkMonitor := by
  rcases htarget with rfl | ⟨rfl, hfw⟩
  · show ((open_after_target g none opts env).2.2).registry = _
    rw [open_after_target_globals g none opts env hdc,
        enumDisplayMonitors_registry, resetGlobals_registry, List.nil_append]
  · simp only [gdigrab_read_header, hfw, not_true, if_false]
    rw [open_after_target_globals g (some env.hwndHandle) _ env hdc,
        enumDisplayMonitors_registry, resetGlobals_registry, List.nil_append]

/-- Witness for C7's amended theorem: a concrete desktop open rebuilds the
registry to the reported single-monitor topology. -/
theorem C7_witness :
    ((gdigrab_read_header g0 .desktop opts100 env800).2.2).registry =
      env800.topology.map mkMonitor :=
  C7_registry_rebuilt_wholesale g0 .desktop opts100 env800 (Or.inl rfl) rfl

/-- C1 counterexample: packet timestamps are `curtime` at emission, not the
tick-paced `time_frame`.  With a 1 fps time base (tick = 1000000 µs), two
consecutive emitted packets carry pts 1000000 and 2000003: their delta,
1000003 µs, is neither exactly one tick nor two (and the pacer did not
skip — `time_frame` advanced by exactly one tick), refuting the claim that
consecutive emitted timestamps differ by exactly one tick (or exactly two
after an overshoot). -/
theorem C1_counterexample :
    gdigrab_read_packet pacerS0 false ⟨[1000000], true, true, cenvNone⟩ =
      some (.ok ⟨154, 1000000⟩ 154, pacerS1) ∧
    gdigrab_read_packet pacerS1 false ⟨[2000003], true, true, cenvNone⟩ =
      some (.ok ⟨154, 2000003⟩ 154, pacerS2) ∧
    pacerS2.time_frame - pacerS1.time_frame = 1000000 ∧
    (2000003 : Int) - 1000000 ≠ 1000000 ∧
    (2000003 : Int) - 1000000 ≠ 2 * 1000000 := by
  refine ⟨by decide, by decide, by decide, by decide, by decide⟩

/-- C1 (amended): the pacer's next-due counter `time_frame` (one tick =
1000000 counter units, i.e. 1000000·num/den µs) advances by exactly one
tick per emitted packet, and by exactly two — a single skipped tick — when
and only when the emission-time delay overshoots by more than one tick; the
advance is never zero or negative, and never more than two ticks.  (The
emitted pts itself is the wall-clock reading, not a tick multiple.) -/
theorem C1_pacer_tick_advance (s : Session) (nonblock : Bool) (env : ReadEnv)
    (pkt : Packet) (ret : Int) (s' : Session)
    (h : gdigrab_read_packet s nonblock env = some (.ok pkt ret, s')) :
    (s'.time_frame = s.time_frame + 1000000 ∨
     s'.time_frame = s.time_frame + 2 * 1000000) ∧
    0 < s'.time_frame - s.time_frame ∧
    pacer_delay s.time_base (s.time_frame + 1000000) pkt.pts ≤ 0 ∧
    (s'.time_frame = s.time_frame + 2 * 1000000 ↔
      pacer_skip s.time_base
        (pacer_delay s.time_base (s.time_frame + 1000000) pkt.pts) = true) := by
  obtain ⟨tf, hpl, _, _, hs⟩ := read_packet_ok_inv h
  obtain ⟨hd, htf⟩ := pacing_loop_ok hpl
  have hs' : s'.time_frame = tf := by rw [hs]
  by_cases hskip : pacer_skip s.time_base
      (pacer_delay s.time_base (s.time_frame + 1000000) pkt.pts) = true
  · rw [if_pos hskip] at htf
    rw [hs', htf]
    exact ⟨Or.inr (by ring), by omega, hd, iff_of_true (by ring) hskip⟩
  · rw [if_neg hskip] at htf
    rw [hs', htf]
    exact ⟨Or.inl rfl, by omega, hd, iff_of_false (by omega) hskip⟩

/-- Witness for C1's amended theorem: the first concrete emitting read
advances `time_frame` by exactly one tick. -/
theorem C1_witness :
    (pacerS1.time_frame = pacerS0.time_frame + 1000000 ∨
     pacerS1.time_frame = pacerS0.time_frame + 2 * 1000000) ∧
    0 < pacerS1.time_frame - pacerS0.time_frame ∧
    pacer_delay pacerS0.time_base (pacerS0.time_frame + 1000000)
      (Packet.mk 154 1000000).pts ≤ 0 ∧
    (pacerS1.time_frame = pacerS0.time_frame + 2 * 1000000 ↔
      pacer_skip pacerS0.time_base
        (pacer_delay pacerS0.time_base (pacerS0.time_frame + 1000000)
          (Packet.mk 154 1000000).pts) = true) :=
  C1_pacer_tick_advance pacerS0 false ⟨[1000000], true, true, cenvNone⟩
    ⟨154, 1000000⟩ 154 pacerS1 (by decide)

/-- C6: in non-blocking mode, when the pacer's delay for the upcoming frame
is still positive at the first clock reading (no new frame due), the read
returns EAGAIN and hands back the session completely unchanged — in
particular `time_frame` is not advanced, since the store at line 783 is
never reached. -/
theorem C6_nonblock_eagain_unchanged (s : Session) (env : ReadEnv) (c : Int)
    (rest : List Int) (hclock : env.clock = c :: rest)
    (hnotdue : 0 < pacer_delay s.time_base (s.time_frame + 1000000) c) :
    gdigrab_read_packet s true env = some (.eagain, s) := by
  simp only [gdigrab_read_packet, hclock, pacing_loop]
  rw [if_neg (by omega)]
  simp

/-- Witness for C6: a concrete non-blocking read half a tick early returns
EAGAIN with the session untouched. -/
theorem C6_witness :
    gdigrab_read_packet pacerS0 true ⟨[500000], true, true, cenvNone⟩ =
      some (.eagain, pacerS0) :=
  C6_nonblock_eagain_unchanged pacerS0 ⟨[500000], true, true, cenvNone⟩ 500000 []
    rfl (by decide)

/-- C2: every emitted packet is allocated with size `header_size +
frame_size` and the read call returns exactly that value, while the
emission leaves both sizes unchanged in the session; and a successful open
fixes `header_size = 14 + 40 + (bitdepth ≤ 8 ? 2^bitdepth × 4 : 0)` —
depending only on the bit depth — and `frame_size` equal to the back
buffer's byte size, `bmWidthBytes × bmHeight × bmPlanes` as reported by
GetObject on the created DIB section. -/
theorem C2_packet_length_contract :
    (∀ (s : Session) (nb : Bool) (env : ReadEnv) (pkt : Packet) (ret : Int)
       (s' : Session),
      gdigrab_read_packet s nb env = some (.ok pkt ret, s') →
      pkt.size = s.header_size + s.frame_size ∧
      ret = s.header_size + s.frame_size ∧
      s'.header_size = s.header_size ∧ s'.frame_size = s.frame_size) ∧
    (∀ (g : EnumGlobals) (target : TargetSpec) (opts : GrabOptions)
       (env : OpenEnv) (s : Session),
      (gdigrab_read_header g target opts env).1 = .ok s →
      s.biBitCount = env.bpp ∧
      s.header_size =
        14 + 40 + (if s.biBitCount ≤ 8 then 2 ^ s.biBitCount.toNat else 0) * 4 ∧
      s.frame_size = env.bmWidthBytes * env.bmHeight * env.bmPlanes) := by
  constructor
  · intro s nb env pkt ret s' h
    obtain ⟨tf, _, hsize, hret, hs⟩ := read_packet_ok_inv h
    have hX : (if s.draw_mouse then (paint_mouse_pointer s env.cursor).2 else s).header_size
          = s.header_size ∧
        (if s.draw_mouse then (paint_mouse_pointer s env.cursor).2 else s).frame_size
          = s.frame_size := by
      by_cases hdm : s.draw_mouse = true
      · rcases paint_mouse_pointer_state s env.cursor with hp | hp <;>
          simp [hdm, hp, markCursorError]
      · simp [hdm]
    refine ⟨hsize, hret, ?_, ?_⟩ <;> rw [hs]
    · exact hX.1
    · exact hX.2
  · intro g target opts env s h
    have hmain : s.header_size = headerSizeOf env.bpp ∧
        s.frame_size = env.bmWidthBytes * env.bmHeight * env.bmPlanes ∧
        s.biBitCount = env.bpp := by
      cases target with
      | badSpec => simp [gdigrab_read_header] at h
      | desktop => exact open_after_target_ok h
      | title =>
          by_cases hfw : env.findWindowOk = true
          · simp only [gdigrab_read_header, hfw, not_true, if_false] at h
            exact open_after_target_ok h
          · simp [gdigrab_read_header, hfw] at h
    obtain ⟨hh, hf, hb⟩ := hmain
    refine ⟨hb, ?_, hf⟩
    rw [hh, hb, headerSizeOf]

/-- Witness for C2: the concrete emitting read returns a 154-byte packet,
exactly `header_size + frame_size` of the session, with both sizes
preserved. -/
theorem C2_witness :
    (Packet.mk 154 1000000).size = pacerS0.header_size + pacerS0.frame_size ∧
    (154 : Int) = pacerS0.header_size + pacerS0.frame_size ∧
    pacerS1.header_size = pacerS0.header_size ∧
    pacerS1.frame_size = pacerS0.frame_size :=
  C2_packet_length_contract.1 pacerS0 false ⟨[1000000], true, true, cenvNone⟩
    ⟨154, 1000000⟩ 154 pacerS1 (by decide)

/-- C4: whenever the open request reaches area validation (target resolved,
device context obtained, virtual bounds computed as `v`) and the resolved
clip rectangle escapes the virtual bounds, or has non-positive width or
height, or the bit depth is not a multiple of 8, the open fails with one of
the two invalid-area errors and no DIB section — the back buffer — was
acquired during the call. -/
theorem C4_invalid_area_before_alloc (g : EnumGlobals) (target : TargetSpec)
    (opts : GrabOptions) (env : OpenEnv) (v : Rect)
    (htarget : target = .desktop ∨ (target = .title ∧ env.findWindowOk = true))
    (hdc : env.getDCOk = true)
    (hv : virtualRectOf (hwndOfTarget target env)
      ((enumDisplayMonitors (resetGlobals g) env.topology).1).registry env = some v)
    (hbad : (clipRectOf opts v).left < v.left ∨ (clipRectOf opts v).top < v.top ∨
            (clipRectOf opts v).right > v.right ∨
            (clipRectOf opts v).bottom > v.bottom ∨
            (clipRectOf opts v).right - (clipRectOf opts v).left ≤ 0 ∨
            (clipRectOf opts v).bottom - (clipRectOf opts v).top ≤ 0 ∨
            env.bpp % 8 ≠ 0) :
    ∃ e, (gdigrab_read_header g target opts env).1 = .err e ∧
      e.isInvalidArea = true ∧
      Acq.dib ∉ (gdigrab_read_header g target opts env).2.1 := by
  rcases htarget with rfl | ⟨rfl, hfw⟩
  · exact open_after_target_invalid hdc hv hbad
  · have h := @open_after_target_invalid g (some env.hwndHandle)
      { opts with show_region := false } env v hdc hv hbad
    simpa [gdigrab_read_header, hfw] using h

/-- Witness for C4: the concrete out-of-bounds request fails with an
invalid-area error before any DIB is created. -/
theorem C4_witness :
    ∃ e, (gdigrab_read_header g0 .desktop optsBad env800).1 = .err e ∧
      e.isInvalidArea = true ∧
      Acq.dib ∉ (gdigrab_read_header g0 .desktop optsBad env800).2.1 :=
  C4_invalid_area_before_alloc g0 .desktop optsBad env800 ⟨0, 0, 800, 600⟩
    (Or.inl rfl) rfl (by decide) (by decide)

/-- C5: when an explicit width and height are requested, the resolved clip
region is exactly `{offset_x, offset_y, offset_x + width, offset_y +
height}` in raw physical pixels, independent of the virtual bounds and of
any DPI scaling; in particular `video_size=100x50, offset_x=10, offset_y=20`
on an 800x600 single-monitor desktop opens successfully with clip region
`{10, 20, 110, 70}`. -/
theorem C5_explicit_size_raw_pixels :
    (∀ (opts : GrabOptions) (v : Rect), opts.width ≠ 0 → opts.height ≠ 0 →
      clipRectOf opts v =
        ⟨opts.offset_x, opts.offset_y,
         opts.offset_x + opts.width, opts.offset_y + opts.height⟩) ∧
    ((gdigrab_read_header g0 .desktop opts100 env800).1).clipRect =
      some ⟨10, 20, 110, 70⟩ := by
  refine ⟨?_, by decide⟩
  intro opts v hw hh
  unfold clipRectOf
  rw [if_neg (by tauto), Rect.mk.injEq]
  exact ⟨rfl, rfl, by ring, by ring⟩

/-- Witness for C5: the example options yield exactly the claimed raw-pixel
clip rectangle. -/
theorem C5_witness :
    clipRectOf opts100 ⟨0, 0, 800, 600⟩ = ⟨10, 20, 110, 70⟩ :=
  C5_explicit_size_raw_pixels.1 opts100 ⟨0, 0, 800, 600⟩ (by decide) (by decide)

/-- C3 counterexample: close is not idempotent, and even a single close
performs an invalid release.  On an opened session holding source DC 1,
dest DC 2 and bitmap 3, one `gdigrab_read_close` issues
`[ReleaseDC 1, DeleteDC 2, DeleteObject 3, DeleteDC 1]` — handle 1 is
released and then deleted again, an operation on an already-released
handle — and because close clears none of those three fields, a second
close issues exactly the same four operations on the already-freed
handles. -/
theorem C3_counterexample :
    (runRelease [1, 2, 3] (gdigrab_read_close pacerS0).1).2 = true ∧
    (gdigrab_read_close (gdigrab_read_close pacerS0).2).1 =
      (gdigrab_read_close pacerS0).1 ∧
    (gdigrab_read_close pacerS0).1 =
      [.releaseDC 1, .deleteDC 2, .deleteObject 3, .deleteDC 1] := by
  refine ⟨by decide, by decide, by decide⟩

/-- C3 (amended): close on a zero-initialized context — the state left by
an open that failed before populating the context — issues no operation and
changes nothing, and the region-window destruction alone is idempotent
(close clears `region_hwnd`, so a second close destroys no window); but
close leaves `source_hdc`, `dest_hdc` and `hbmp` set, so it is not
idempotent over those handles: a second close repeats their release. -/
theorem C3_close_partial_and_region_idempotent (s : Session) :
    (s.source_hdc = none → s.dest_hdc = none → s.hbmp = none →
      s.region_hwnd = none → gdigrab_read_close s = ([], s)) ∧
    (gdigrab_read_close s).2.source_hdc = s.source_hdc ∧
    (gdigrab_read_close s).2.dest_hdc = s.dest_hdc ∧
    (gdigrab_read_close s).2.hbmp = s.hbmp ∧
    (s.show_region = true → (gdigrab_read_close s).2.region_hwnd = none) ∧
    (∀ op ∈ (gdigrab_read_close (gdigrab_read_close s).2).1,
      ∀ h, op ≠ CloseOp.destroyWindow h) := by
  obtain ⟨fs, hsz, tb, tf, dm, sr, w, ht, ox, oy, hw, src, dst, bw, bh, bc,
    hb, buf, cr, rh, cep⟩ := s
  cases sr <;> cases src <;> cases dst <;> cases hb <;> cases rh <;>
    simp [gdigrab_read_close, gdigrab_region_wnd_destroy]

/-- Witness for C3's amended theorem: close on the never-populated context
is a no-op. -/
theorem C3_witness :
    gdigrab_read_close closedS = ([], closedS) :=
  (C3_close_partial_and_region_idempotent closedS).1 rfl rfl rfl rfl

/-- C8: the cursor overlay draws only when the system pointer is in the
"showing" state and the computed top-left draw position lies within the
buffer bounds (the inclusive `[0, width] × [0, height]` test the code
performs); whenever the pointer is not showing, or the computed position
falls outside those bounds, no draw occurs. -/
theorem C8_cursor_draw_guard (s : Session) (e : CursorEnv) :
    ((paint_mouse_pointer s e).1 = true →
      e.flags = CURSOR_SHOWING ∧
      ∃ p, cursor_draw_pos s e = some p ∧ inClipBounds s.clip_rect p = true) ∧
    (e.flags ≠ CURSOR_SHOWING → (paint_mouse_pointer s e).1 = false) ∧
    (∀ p, cursor_draw_pos s e = some p → inClipBounds s.clip_rect p = false →
      (paint_mouse_pointer s e).1 = false) := by
  refine ⟨fun h => ?_, fun hne => ?_, fun p hp hnin => ?_⟩
  · obtain ⟨_, hf, _, hex⟩ := (paint_drew_iff s e).mp h
    exact ⟨hf, hex⟩
  · cases hb : (paint_mouse_pointer s e).1 with
    | false => rfl
    | true => exact absurd ((paint_drew_iff s e).mp hb).2.1 hne
  · cases hb : (paint_mouse_pointer s e).1 with
    | false => rfl
    | true =>
        obtain ⟨_, _, _, p', hp', hin'⟩ := (paint_drew_iff s e).mp hb
        rw [hp] at hp'
        obtain rfl : p = p' := by injection hp'
        simp [hnin] at hin'

/-- Witness for C8: in the concrete drawing scenario the guard yields the
showing state and an in-bounds position. -/
theorem C8_witness :
    cenvDraw.flags = CURSOR_SHOWING ∧
    ∃ p, cursor_draw_pos pacerS0 cenvDraw = some p ∧
      inClipBounds pacerS0.clip_rect p = true :=
  (C8_cursor_draw_guard pacerS0 cenvDraw).1 (by decide)

end GdiGrab
